import Mathlib

/-!
Shallow embedding of the Huddle REST backend (`app.py`) and verification of
its specified behaviour.  Each route handler is translated into a pure Lean
function over explicit store state; Firestore's atomic operations
(array-union, document update) are modelled on Lean lists, and Python
truthiness of request fields is made explicit.
-/

namespace Huddle

/-- Python truthiness of an optional string request field: a missing field
(`None`) and the empty string are falsy, every other string is truthy. -/
def truthy : Option String → Bool
  | none => false
  | some s => s != ""

/-- Python `str()` applied to an optional string: `str(None)` is the literal
string `"None"`; a present string is unchanged.  Several handlers apply
`str(...)` to `data.get(...)` / `request.args.get(...)` results. -/
def pyStr : Option String → String
  | none => "None"
  | some s => s

/-- Firestore `ArrayUnion`: appends, in order, exactly those elements of `ys`
that are not already present in the array (set-union semantics). -/
def arrayUnion {α : Type} [BEq α] (xs ys : List α) : List α :=
  ys.foldl (fun acc y => if acc.contains y then acc else acc ++ [y]) xs

/-- Result of a handler call: the HTTP status code together with the store
state after the call (the handlers here touch a single document / collection,
carried as `σ`). -/
structure HandlerResult (σ : Type) where
  status : Nat
  store : σ
  deriving Repr, DecidableEq

/-! ## Q&A data model (embedded answers) -/

/-- An answer embedded in a question's `answers` array (`app.py` `add_answer`
creates these fields). -/
structure Answer where
  answerId : String
  userId : String
  userName : String
  content : String
  votes : Int
  accepted : Bool
  createdAt : String
  deriving Repr, DecidableEq

/-- A question document, restricted to the fields the answer-mutating
handlers read and write. -/
structure Question where
  userId : String
  answers : List Answer
  deriving Repr, DecidableEq

/-- The answers-array rewrite performed by `accept_answer`: every element's
`accepted` flag is set to whether its `answerId` equals the targeted id. -/
def acceptAnswerUpdate (answers : List Answer) (answer_id : String) : List Answer :=
  answers.map fun a => { a with accepted := a.answerId == answer_id }

/-- Handler `accept_answer` (POST `/acceptanswer`).  Reads `questionId`,
`answerId`, `str(userId)` from the body; 400 when any is falsy, 404 when the
question is missing, 403 unless the caller is the question's author,
otherwise rewrites the whole answers array and returns 200. -/
def accept_answer (questionId? answerId? userId? : Option String)
    (q? : Option Question) : HandlerResult (Option Question) :=
  let user_id := pyStr userId?
  if !(truthy questionId? && truthy answerId? && user_id != "") then
    ⟨400, q?⟩
  else
    match q? with
    | none => ⟨404, none⟩
    | some q =>
      if q.userId != user_id then ⟨403, some q⟩
      else ⟨200, some { q with answers := acceptAnswerUpdate q.answers (answerId?.getD "") }⟩

/-- The answers-array update performed by `vote_answer`: the first element
whose `answerId` matches has its vote count incremented (the Python loop
`break`s after the first match); all other elements are unchanged. -/
def voteAnswerUpdate : List Answer → String → Int → List Answer
  | [], _, _ => []
  | a :: rest, answer_id, inc =>
    if a.answerId == answer_id then { a with votes := a.votes + inc } :: rest
    else a :: voteAnswerUpdate rest answer_id inc

/-- Handler `vote_answer` (POST `/voteanswer`).  400 when a field is falsy or
`voteType` is not `"up"`/`"down"`, 404 when the question is missing,
otherwise reads the answers array, bumps the matching answer in memory and
writes the whole array back with status 200. -/
def vote_answer (questionId? answerId? voteType? : Option String)
    (q? : Option Question) : HandlerResult (Option Question) :=
  if !(truthy questionId? && truthy answerId? && truthy voteType?) then
    ⟨400, q?⟩
  else if !(voteType?.getD "" == "up" || voteType?.getD "" == "down") then
    ⟨400, q?⟩
  else
    let increment : Int := if voteType?.getD "" == "up" then 1 else -1
    match q? with
    | none => ⟨404, none⟩
    | some q => ⟨200, some { q with answers := voteAnswerUpdate q.answers (answerId?.getD "") increment }⟩

/-! ## getQuestions pagination -/

/-- Pagination block returned by `get_questions`. -/
structure Pagination where
  currentPage : Nat
  totalPages : Nat
  totalItems : Nat
  itemsPerPage : Nat
  deriving Repr, DecidableEq

/-- Response of `get_questions`: the page of documents plus the pagination
block.  `α` is the (formatted) question document type: the per-item response
shaping in the handler is a one-to-one map over the slice, so the slice is
kept abstract over the element type. -/
structure QuestionsPage (α : Type) where
  questions : List α
  pagination : Pagination
  deriving Repr, DecidableEq

/-- Handler `get_questions` (GET `/getquestions`), pagination part.  `docs`
is the full filtered, ordered result set fetched by the Firestore query
(`list(query.stream())` in the handler).  `pageParam?`/`limitParam?` are the
integer query parameters, `none` when absent (Python defaults 1 and 5).
As in the source: `page = max(1, page)`, `limit = min(100, max(1, limit))`,
slice `[skip : skip + limit]` with `skip = (page - 1) * limit`, and
`total_pages = (total + limit - 1) // limit` when `total > 0` else 1. -/
def get_questions {α : Type} (docs : List α) (pageParam? limitParam? : Option Int) :
    QuestionsPage α :=
  let page : Int := max 1 (pageParam?.getD 1)
  let limit : Int := min 100 (max 1 (limitParam?.getD 5))
  let skip : Int := (page - 1) * limit
  let total_count : Nat := docs.length
  let paginated_questions := (docs.drop skip.toNat).take limit.toNat
  let total_pages : Nat :=
    if total_count > 0 then (total_count + limit.toNat - 1) / limit.toNat else 1
  ⟨paginated_questions, ⟨page.toNat, total_pages, total_count, limit.toNat⟩⟩

/-! ## Group data model and handlers -/

/-- A group document, restricted to the fields read by the handlers below. -/
structure Group where
  creatoruserid : String
  project_name : Option String
  preferred_team_size : Option String
  members : List String
  deriving Repr, DecidableEq

/-- Base-10 numeric value of a list of digit characters; this is what
Python's `int()` returns on the all-digit string `re.search(r'(\d+)', s)`
extracts. -/
def digitsVal (cs : List Char) : Nat :=
  cs.foldl (fun n c => 10 * n + (c.toNat - 48)) 0

/-- The `re.search(r'(\d+)', s)` match: the first maximal run of digit
characters in `s`, or `none` when `s` has no digit. -/
def firstDigitRun : List Char → Option (List Char)
  | [] => none
  | c :: rest =>
    if c.isDigit then some (c :: rest.takeWhile Char.isDigit)
    else firstDigitRun rest

/-- Whitespace stripping done by Python `int()` on both ends of its string
argument. -/
def pyTrim (cs : List Char) : List Char :=
  ((cs.dropWhile Char.isWhitespace).reverse.dropWhile Char.isWhitespace).reverse

/-- Optional single leading sign accepted by Python `int()`: the sign factor
together with the remaining characters. -/
def stripSign : List Char → Int × List Char
  | [] => (1, [])
  | c :: rest =>
    if c = '-' then (-1, rest) else if c = '+' then (1, rest) else (1, c :: rest)

/-- Python `int()` applied to a string: optional surrounding whitespace and
an optional single sign, followed by a nonempty digit run; anything else
raises (modelled as `none`). -/
def pyInt? (s : String) : Option Int :=
  let sd := stripSign (pyTrim s.data)
  if sd.2 ≠ [] ∧ sd.2.all Char.isDigit then some (sd.1 * (digitsVal sd.2 : Int))
  else none

/-- The `maxsize` computation in `get_groups`: when `preferred_team_size` is
truthy, first `re.search(r'(\d+)', ...)` (value of the first digit run),
falling back to `int(preferredteamsize)`, falling back to `None`. -/
def parseMaxSize : Option String → Option Int
  | none => none
  | some s =>
    if s == "" then none
    else
      match firstDigitRun s.data with
      | some run => some (digitsVal run : Int)
      | none => pyInt? s

/-- Per-group derived view assembled by `get_groups` for each group
document. -/
structure GroupView where
  memberCount : Nat
  maxMembers : Option Int
  isFull : Bool
  isMember : Bool
  projectname : String
  deriving Repr, DecidableEq

/-- The per-group body of the `get_groups` loop (GET `/getavailablegroups`):
derives `memberCount`, `maxMembers` (via `parseMaxSize`), `isFull`
(`if maxsize and len(members) >= maxsize`, so a zero `maxsize` is falsy),
`isMember` (`userid in members if userid else False`) and the project-name
default. -/
def groupView (userid : String) (g : Group) : GroupView :=
  let members := g.members
  let maxsize := parseMaxSize g.preferred_team_size
  let isfull : Bool :=
    match maxsize with
    | some m => (m != 0) && decide (m ≤ (members.length : Int))
    | none => false
  let ismember : Bool := if userid != "" then members.contains userid else false
  let projectname : String :=
    match g.project_name with
    | none => "Unnamed Group"
    | some n => if n.trim == "" then "Unnamed Group" else n
  ⟨members.length, maxsize, isfull, ismember, projectname⟩

/-- Handler `join_group_api` (POST `/joingroup`).  400 when `str(user_id)` or
`group_id` is falsy, 404 when the group document does not exist, otherwise an
atomic `ArrayUnion` of the user id into `members` and status 200. -/
def join_group_api (userId? groupId? : Option String) (g? : Option Group) :
    HandlerResult (Option Group) :=
  let user_id := pyStr userId?
  if !(user_id != "" && truthy groupId?) then ⟨400, g?⟩
  else
    match g? with
    | none => ⟨404, none⟩
    | some g => ⟨200, some { g with members := arrayUnion g.members [user_id] }⟩

/-! ## User data model and auth handlers -/

/-- A user document as created by `signup`. -/
structure User where
  email : String
  password : String
  fullName : String
  university : String
  branch : String
  academicYear : String
  skills : List String
  profilePhotoUrl : String
  coverPhotoUrl : String
  bio : String
  deriving Repr, DecidableEq

/-- The users collection: store-assigned document id paired with the
document. -/
abbrev UsersCollection := List (String × User)

/-- Handler `signup` (POST `/signup`).  400 when any required field is falsy
(no document created), 409 when an equality query on `email` finds an
existing document (no document created), otherwise hashes the password and
appends the new document under the store-assigned id `newId`. -/
def signup (hash_password : String → String) (newId : String)
    (email? password? fullName? university? branch? academicYear? : Option String)
    (skills : List String) (users : UsersCollection) : HandlerResult UsersCollection :=
  if !(truthy email? && truthy password? && truthy fullName? && truthy university? &&
      truthy branch? && truthy academicYear?) then
    ⟨400, users⟩
  else if users.any (fun u => u.2.email == email?.getD "") then
    ⟨409, users⟩
  else
    let user_data : User :=
      { email := email?.getD ""
        password := hash_password (password?.getD "")
        fullName := fullName?.getD ""
        university := university?.getD ""
        branch := branch?.getD ""
        academicYear := academicYear?.getD ""
        skills := skills
        profilePhotoUrl := ""
        coverPhotoUrl := ""
        bio := "Passionate student focused on learning and building innovative projects." }
    ⟨200, users ++ [(newId, user_data)]⟩

/-- The profile projection assembled by `login` (and `signup`/`get_user`):
document id plus every stored field except `password`. -/
structure UserProfile where
  id : String
  email : String
  fullName : String
  university : String
  branch : String
  academicYear : String
  skills : List String
  profilePhotoUrl : String
  coverPhotoUrl : String
  bio : String
  deriving Repr, DecidableEq

/-- Projection of a user document into the login response payload; the
`password` field is not copied. -/
def profileOf (id : String) (u : User) : UserProfile :=
  ⟨id, u.email, u.fullName, u.university, u.branch, u.academicYear, u.skills,
    u.profilePhotoUrl, u.coverPhotoUrl, u.bio⟩

/-- Result of the login handler: status code plus the returned profile, if
any. -/
structure LoginResult where
  status : Nat
  user : Option UserProfile
  deriving Repr, DecidableEq

/-- Handler `login_api` (POST `/login`).  400 when email or password is
falsy; the email equality query with `limit(1)` yields the first matching
document; 404 when there is none, 401 when the bcrypt check fails, otherwise
200 with the profile projection. -/
def login_api (check_password : String → String → Bool)
    (email? password? : Option String) (users : UsersCollection) : LoginResult :=
  if !(truthy email? && truthy password?) then ⟨400, none⟩
  else
    match users.find? (fun u => u.2.email == email?.getD "") with
    | none => ⟨404, none⟩
    | some (user_id, user) =>
      if !(check_password (password?.getD "") user.password) then ⟨401, none⟩
      else ⟨200, some (profileOf user_id user)⟩

/-! ## Discussions -/

/-- A message embedded in a discussion's `messages` array (`send_message`
creates these fields; `userName`/`content` are stored verbatim from the
body, so they may be null). -/
structure Message where
  messageId : String
  userId : String
  userName : Option String
  content : Option String
  timestamp : String
  deriving Repr, DecidableEq

/-- A discussion document, restricted to the fields `send_message` reads and
writes. -/
structure Discussion where
  roomName : String
  groupId : Option String
  messages : List Message
  lastMessage : Option String
  lastMessageTime : Nat
  participants : List String
  deriving Repr, DecidableEq

/-- Handler `send_message` (POST `/sendmessage`).  400 when `discussionId` or
`str(userId)` is falsy, 404 when the discussion is missing; when the
discussion has a truthy `groupId`, 403 when that group is missing or the
caller is not in its `members`; otherwise appends the synthesized message
via `ArrayUnion`, updates `lastMessage`/`lastMessageTime` and unions the
sender into `participants`.  `now` models the server clock (unix seconds for
the synthesized id and `SERVER_TIMESTAMP`), `nowIso` its ISO rendering. -/
def send_message (discussionId? userId? userName? content? : Option String)
    (now : Nat) (nowIso : String)
    (d? : Option Discussion) (lookupGroup : String → Option Group) :
    HandlerResult (Option Discussion) :=
  let user_id := pyStr userId?
  if !(truthy discussionId? && user_id != "") then ⟨400, d?⟩
  else
    match d? with
    | none => ⟨404, none⟩
    | some d =>
      let message : Message :=
        { messageId := (discussionId?.getD "") ++ "_msg_" ++ toString now
          userId := user_id
          userName := userName?
          content := content?
          timestamp := nowIso }
      let updated : Discussion :=
        { d with
          messages := arrayUnion d.messages [message]
          lastMessage := content?
          lastMessageTime := now
          participants := arrayUnion d.participants [user_id] }
      match d.groupId with
      | none => ⟨200, some updated⟩
      | some group_id =>
        if group_id == "" then ⟨200, some updated⟩
        else
          match lookupGroup group_id with
          | none => ⟨403, some d⟩
          | some g =>
            if !(g.members.contains user_id) then ⟨403, some d⟩
            else ⟨200, some updated⟩

/-! ## Notifications -/

/-- A synthesized notification item (identifying fields; the presentation
strings built from the group name are elided). -/
structure Notification where
  id : String
  ntype : String
  unread : Bool
  deriving Repr, DecidableEq

/-- Result of the notifications handler: status plus the synthesized feed,
if any. -/
structure NotificationsResult where
  status : Nat
  notifications : Option (List Notification)
  deriving Repr, DecidableEq

/-- Handler `get_notifications` (GET `/getnotifications`).  Reads
`str(request.args.get('userId'))` — so a missing parameter becomes the
truthy string `"None"` and the `if not user_id` guard only fires for an
empty string.  Scans the caller's groups, emitting one `group` item per
group and a `member` item when the caller created the group and it has more
than one member, then appends the static platform-announcement item. -/
def get_notifications (userId? : Option String) (groups : List (String × Group)) :
    NotificationsResult :=
  let user_id := pyStr userId?
  if user_id == "" then ⟨400, none⟩
  else
    let user_groups := groups.filter (fun p => p.2.members.contains user_id)
    let perGroup : List (List Notification) :=
      user_groups.map (fun p =>
        ⟨"group-" ++ p.1, "group", true⟩ ::
          (if p.2.creatoruserid == user_id && decide (p.2.members.length > 1) then
            [⟨"member-" ++ p.1, "activity", true⟩]
          else []))
    ⟨200, some (perGroup.flatten ++ [⟨"system-qa-update", "activity", true⟩])⟩

/-! ## Helper lemmas: answer-array rewrites -/

theorem acceptAnswerUpdate_accepted_eq (answers : List Answer) (X : String) :
    ∀ a ∈ acceptAnswerUpdate answers X, a.accepted = (a.answerId == X) := by
  intro a ha
  simp only [acceptAnswerUpdate, List.mem_map] at ha
  obtain ⟨b, _, rfl⟩ := ha
  rfl

theorem length_filter_acceptAnswerUpdate (answers : List Answer) (X : String) :
    ((acceptAnswerUpdate answers X).filter (fun a => a.accepted)).length
      = (answers.map Answer.answerId).count X := by
  induction answers with
  | nil => rfl
  | cons a rest ih =>
    simp only [acceptAnswerUpdate, List.map_cons] at *
    rw [List.filter_cons, List.count_cons]
    by_cases h : a.answerId = X
    · simp [h, ih]
    · have hb : (a.answerId == X) = false := beq_eq_false_iff_ne.mpr h
      simp [hb, ih, Ne.symm h]

theorem voteAnswerUpdate_no_match (answers : List Answer) (X : String) (inc : Int)
    (h : X ∉ answers.map Answer.answerId) :
    voteAnswerUpdate answers X inc = answers := by
  induction answers with
  | nil => rfl
  | cons a rest ih =>
    simp only [List.map_cons, List.mem_cons, not_or] at h
    have hne : (a.answerId == X) = false :=
      beq_eq_false_iff_ne.mpr (fun hc => h.1 hc.symm)
    simp [voteAnswerUpdate, hne, ih h.2]

/-- C1: a successful acceptAnswer by the question's author for an answer id
`X` that occurs (once) in the answers array rewrites the array so that the
answer with id `X` is accepted, every other answer is unaccepted, and exactly
one answer is accepted afterwards — regardless of which answer was accepted
before. -/
theorem accept_answer_exactly_one_accepted (qid X U : String) (q : Question)
    (hqid : qid ≠ "") (hX : X ≠ "") (hU : U ≠ "")
    (hauthor : q.userId = U)
    (hmem : X ∈ q.answers.map Answer.answerId)
    (hnodup : (q.answers.map Answer.answerId).Nodup) :
    ∃ q', accept_answer (some qid) (some X) (some U) (some q) = ⟨200, some q'⟩ ∧
      (∀ a ∈ q'.answers, a.answerId = X → a.accepted = true) ∧
      (∀ a ∈ q'.answers, a.answerId ≠ X → a.accepted = false) ∧
      (q'.answers.filter (fun a => a.accepted)).length = 1 := by
  refine ⟨{ q with answers := acceptAnswerUpdate q.answers X }, ?_, ?_, ?_, ?_⟩
  · simp [accept_answer, truthy, pyStr, hqid, hX, hU, hauthor]
  · intro a ha hid
    rw [acceptAnswerUpdate_accepted_eq _ _ a ha]
    simp [hid]
  · intro a ha hid
    rw [acceptAnswerUpdate_accepted_eq _ _ a ha]
    simp [hid]
  · rw [length_filter_acceptAnswerUpdate]
    exact List.count_eq_one_of_mem hnodup hmem

/-- C10: an acceptAnswer by the question's author with an answer id matching
no answer in the array still succeeds with 200, and the rewrite forces every
answer's `accepted` flag to false, leaving zero accepted answers. -/
theorem accept_answer_no_match_clears_all (qid X U : String) (q : Question)
    (hqid : qid ≠ "") (hX : X ≠ "") (hU : U ≠ "")
    (hauthor : q.userId = U)
    (hmem : X ∉ q.answers.map Answer.answerId) :
    ∃ q', accept_answer (some qid) (some X) (some U) (some q) = ⟨200, some q'⟩ ∧
      (∀ a ∈ q'.answers, a.accepted = false) ∧
      q'.answers.filter (fun a => a.accepted) = [] := by
  refine ⟨{ q with answers := acceptAnswerUpdate q.answers X }, ?_, ?_, ?_⟩
  · simp [accept_answer, truthy, pyStr, hqid, hX, hU, hauthor]
  · intro a ha
    rw [acceptAnswerUpdate_accepted_eq _ _ a ha]
    simp only [acceptAnswerUpdate, List.mem_map] at ha
    obtain ⟨b, hb, rfl⟩ := ha
    have : b.answerId ≠ X := fun hcontra => hmem (hcontra ▸ List.mem_map_of_mem Answer.answerId hb)
    simpa [bne_iff_ne] using this
  · have hlen : ((acceptAnswerUpdate q.answers X).filter (fun a => a.accepted)).length = 0 := by
      rw [length_filter_acceptAnswerUpdate]
      exact List.count_eq_zero_of_not_mem hmem
    exact List.eq_nil_of_length_eq_zero hlen

/-- C9: a voteAnswer with a valid vote type on an existing question whose
answers array has no answer with the given id succeeds with 200 and writes
back exactly the array that was read: the question document is unchanged. -/
theorem vote_answer_no_match_is_noop (qid X vt : String) (q : Question)
    (hqid : qid ≠ "") (hX : X ≠ "") (hvt : vt = "up" ∨ vt = "down")
    (hmem : X ∉ q.answers.map Answer.answerId) :
    vote_answer (some qid) (some X) (some vt) (some q) = ⟨200, some q⟩ := by
  have hvt' : vt ≠ "" := by rcases hvt with h | h <;> simp [h]
  have hok : ((vt == "up") || (vt == "down")) = true := by
    rcases hvt with h | h <;> simp [h]
  have hupd : ∀ inc : Int, voteAnswerUpdate q.answers X inc = q.answers :=
    fun inc => voteAnswerUpdate_no_match q.answers X inc hmem
  simp [vote_answer, truthy, hqid, hX, hvt', hok, hupd]

/-- A concrete two-answer question (author `"u1"`, answer `"q1_ans_1"`
currently accepted) used to instantiate the Q&A theorems. -/
def qEx : Question :=
  { userId := "u1"
    answers :=
      [ { answerId := "q1_ans_1", userId := "u2", userName := "A", content := "first answer"
          votes := 0, accepted := true, createdAt := "t1" },
        { answerId := "q1_ans_2", userId := "u3", userName := "B", content := "second answer"
          votes := 2, accepted := false, createdAt := "t2" } ] }

/-- Witness for C1: accepting `"q1_ans_2"` on `qEx` (where `"q1_ans_1"` was
accepted before) flips acceptance to exactly the targeted answer. -/
theorem accept_answer_exactly_one_accepted_witness :
    ∃ q', accept_answer (some "q1") (some "q1_ans_2") (some "u1") (some qEx)
        = ⟨200, some q'⟩ ∧
      (∀ a ∈ q'.answers, a.answerId = "q1_ans_2" → a.accepted = true) ∧
      (∀ a ∈ q'.answers, a.answerId ≠ "q1_ans_2" → a.accepted = false) ∧
      (q'.answers.filter (fun a => a.accepted)).length = 1 :=
  accept_answer_exactly_one_accepted "q1" "q1_ans_2" "u1" qEx
    (by decide) (by decide) (by decide) rfl (by decide) (by decide)

/-- Witness for C10: accepting the unmatched id `"q1_ans_404"` on `qEx`
succeeds and silently un-accepts the previously accepted answer. -/
theorem accept_answer_no_match_clears_all_witness :
    ∃ q', accept_answer (some "q1") (some "q1_ans_404") (some "u1") (some qEx)
        = ⟨200, some q'⟩ ∧
      (∀ a ∈ q'.answers, a.accepted = false) ∧
      q'.answers.filter (fun a => a.accepted) = [] :=
  accept_answer_no_match_clears_all "q1" "q1_ans_404" "u1" qEx
    (by decide) (by decide) (by decide) rfl (by decide)

/-- Witness for C9: up-voting the unmatched id `"q1_ans_404"` on `qEx`
returns 200 and leaves the question document exactly as read. -/
theorem vote_answer_no_match_is_noop_witness :
    vote_answer (some "q1") (some "q1_ans_404") (some "up") (some qEx) = ⟨200, some qEx⟩ :=
  vote_answer_no_match_is_noop "q1" "q1_ans_404" "up" qEx
    (by decide) (by decide) (Or.inl rfl) (by decide)

/-- C2: for integer query parameters, `get_questions` clamps the limit to
1..100 (default 5 when absent), floors the page at 1 (default 1), returns
exactly the slice `[(page-1)*limit, (page-1)*limit + limit)` of the full
filtered ordered result set, and reports `totalItems` as the full count,
`itemsPerPage` as the effective limit, `currentPage` as the effective page,
and `totalPages = ceil(totalItems / limit)` with a minimum of 1 when
`totalItems = 0`. -/
theorem get_questions_pagination {α : Type} (docs : List α)
    (pageParam? limitParam? : Option Int) :
    1 ≤ (min 100 (max 1 (limitParam?.getD 5))).toNat ∧
    (min 100 (max 1 (limitParam?.getD 5))).toNat ≤ 100 ∧
    1 ≤ (max 1 (pageParam?.getD 1)).toNat ∧
    (get_questions docs pageParam? limitParam?).questions
      = (docs.drop (((max 1 (pageParam?.getD 1)).toNat - 1)
            * (min 100 (max 1 (limitParam?.getD 5))).toNat)).take
          (min 100 (max 1 (limitParam?.getD 5))).toNat ∧
    (get_questions docs pageParam? limitParam?).pagination.currentPage
      = (max 1 (pageParam?.getD 1)).toNat ∧
    (get_questions docs pageParam? limitParam?).pagination.itemsPerPage
      = (min 100 (max 1 (limitParam?.getD 5))).toNat ∧
    (get_questions docs pageParam? limitParam?).pagination.totalItems = docs.length ∧
    (get_questions docs pageParam? limitParam?).pagination.totalPages
      = max 1 (docs.length ⌈/⌉ (min 100 (max 1 (limitParam?.getD 5))).toNat) := by
  have hl1 : 1 ≤ (min 100 (max 1 (limitParam?.getD 5))).toNat := by
    generalize limitParam?.getD 5 = lp
    omega
  have hl2 : (min 100 (max 1 (limitParam?.getD 5))).toNat ≤ 100 := by
    generalize limitParam?.getD 5 = lp
    omega
  have hp1 : 1 ≤ (max 1 (pageParam?.getD 1)).toNat := by
    generalize pageParam?.getD 1 = pp
    omega
  have hskip : ((max 1 (pageParam?.getD 1) - 1) * min 100 (max 1 (limitParam?.getD 5))).toNat
      = ((max 1 (pageParam?.getD 1)).toNat - 1)
          * (min 100 (max 1 (limitParam?.getD 5))).toNat := by
    obtain ⟨m, hm⟩ := Int.eq_ofNat_of_zero_le
      (by generalize pageParam?.getD 1 = pp; omega :
        (0 : Int) ≤ max 1 (pageParam?.getD 1) - 1)
    obtain ⟨k, hk⟩ := Int.eq_ofNat_of_zero_le
      (by generalize limitParam?.getD 5 = lp; omega :
        (0 : Int) ≤ min 100 (max 1 (limitParam?.getD 5)))
    have h1 : (max 1 (pageParam?.getD 1)).toNat - 1 = m := by omega
    have h2 : (min 100 (max 1 (limitParam?.getD 5))).toNat = k := by omega
    rw [h1, h2, hm, hk, ← Int.natCast_mul, Int.toNat_natCast]
  refine ⟨hl1, hl2, hp1, ?_, rfl, rfl, rfl, ?_⟩
  · have hq : (get_questions docs pageParam? limitParam?).questions
        = (docs.drop ((max 1 (pageParam?.getD 1) - 1)
              * min 100 (max 1 (limitParam?.getD 5))).toNat).take
            (min 100 (max 1 (limitParam?.getD 5))).toNat := rfl
    rw [hq, hskip]
  · have htp : (get_questions docs pageParam? limitParam?).pagination.totalPages
        = (if docs.length > 0
            then (docs.length + (min 100 (max 1 (limitParam?.getD 5))).toNat - 1)
              / (min 100 (max 1 (limitParam?.getD 5))).toNat
            else 1) := rfl
    rw [htp, Nat.ceilDiv_eq_add_pred_div]
    rcases Nat.eq_zero_or_pos docs.length with h0 | hpos
    · rw [h0, if_neg (by omega)]
      have hz : (0 + (min 100 (max 1 (limitParam?.getD 5))).toNat - 1)
          / (min 100 (max 1 (limitParam?.getD 5))).toNat = 0 := Nat.div_eq_of_lt (by omega)
      rw [hz]
      omega
    · rw [if_pos hpos]
      have h1 : 1 ≤ (docs.length + (min 100 (max 1 (limitParam?.getD 5))).toNat - 1)
          / (min 100 (max 1 (limitParam?.getD 5))).toNat := by
        rw [Nat.le_div_iff_mul_le
          (by omega : 0 < (min 100 (max 1 (limitParam?.getD 5))).toNat)]
        omega
      omega

/-- C4: a signup with any of the six required fields missing (falsy) fails
with 400 and leaves the users collection unchanged; a signup with all fields
present whose email equals some stored document's email fails with 409 and
leaves the collection unchanged. -/
theorem signup_failure_creates_nothing (hash : String → String) (newId : String)
    (email? password? fullName? university? branch? academicYear? : Option String)
    (skills : List String) (users : UsersCollection) :
    (¬ (truthy email? = true ∧ truthy password? = true ∧ truthy fullName? = true ∧
        truthy university? = true ∧ truthy branch? = true ∧ truthy academicYear? = true) →
      signup hash newId email? password? fullName? university? branch? academicYear?
        skills users = ⟨400, users⟩) ∧
    ((truthy email? = true ∧ truthy password? = true ∧ truthy fullName? = true ∧
        truthy university? = true ∧ truthy branch? = true ∧ truthy academicYear? = true) →
      (∃ u ∈ users, u.2.email = email?.getD "") →
      signup hash newId email? password? fullName? university? branch? academicYear?
        skills users = ⟨409, users⟩) := by
  constructor
  · intro h
    have hX : (truthy email? && truthy password? && truthy fullName? && truthy university? &&
        truthy branch? && truthy academicYear?) = false := by
      cases hb : (truthy email? && truthy password? && truthy fullName? &&
        truthy university? && truthy branch? && truthy academicYear?) with
      | false => rfl
      | true =>
        simp only [Bool.and_eq_true, and_assoc] at hb
        exact absurd hb h
    simp [signup, hX]
  · intro h hex
    have hX : (truthy email? && truthy password? && truthy fullName? && truthy university? &&
        truthy branch? && truthy academicYear?) = true := by
      simp only [Bool.and_eq_true, and_assoc]
      exact h
    obtain ⟨u, hu, he⟩ := hex
    have hany : users.any (fun u => u.2.email == email?.getD "") = true := by
      rw [List.any_eq_true]
      exact ⟨u, hu, by simp [he]⟩
    simp [signup, hX, hany]

/-- C5: a login with email and password present returns 404 when no user
document matches the email, 401 when one matches but the hash check fails,
and otherwise 200 with the profile projection of the matched user — a
projection that does not depend on (and hence does not expose) the stored
password. -/
theorem login_errors_and_profile (check_password : String → String → Bool)
    (email password : String) (users : UsersCollection)
    (he : email ≠ "") (hp : password ≠ "") :
    ((∀ u ∈ users, u.2.email ≠ email) →
      login_api check_password (some email) (some password) users = ⟨404, none⟩) ∧
    (∀ uid usr, users.find? (fun u => u.2.email == email) = some (uid, usr) →
      (check_password password usr.password = false →
        login_api check_password (some email) (some password) users = ⟨401, none⟩) ∧
      (check_password password usr.password = true →
        login_api check_password (some email) (some password) users
          = ⟨200, some (profileOf uid usr)⟩)) ∧
    (∀ uid usr pw, profileOf uid { usr with password := pw } = profileOf uid usr) := by
  refine ⟨?_, ?_, fun uid usr pw => rfl⟩
  · intro h
    have hnone : users.find? (fun u => u.2.email == email) = none := by
      rw [List.find?_eq_none]
      intro u hu
      simp [h u hu]
    simp [login_api, truthy, he, hp, hnone]
  · intro uid usr hfind
    constructor
    · intro hfail
      simp [login_api, truthy, he, hp, hfind, hfail]
    · intro hokk
      simp [login_api, truthy, he, hp, hfind, hokk]

/-- C6: a sendMessage on a discussion whose `groupId` names an existing
group that does not list the requesting user among its members fails with
403 and leaves the discussion document (in particular its messages array)
unchanged. -/
theorem send_message_nonmember_rejected (did uid : String)
    (userName? content? : Option String) (now : Nat) (nowIso : String)
    (d : Discussion) (lookupGroup : String → Option Group) (g : Group) (gid : String)
    (hdid : did ≠ "") (huid : uid ≠ "")
    (hgid : d.groupId = some gid) (hgid' : gid ≠ "")
    (hg : lookupGroup gid = some g) (hmem : uid ∉ g.members) :
    send_message (some did) (some uid) userName? content? now nowIso (some d) lookupGroup
      = ⟨403, some d⟩ := by
  have hc : g.members.contains uid = false := by
    simpa using hmem
  simp [send_message, truthy, pyStr, hdid, huid, hgid, hgid', hg, hc, hmem]

/-! ## Helper lemmas: array-union on a single element -/

theorem arrayUnion_singleton {α : Type} [BEq α] (xs : List α) (u : α) :
    arrayUnion xs [u] = if xs.contains u then xs else xs ++ [u] := rfl

theorem arrayUnion_singleton_idem {α : Type} [BEq α] [LawfulBEq α] (xs : List α) (u : α) :
    arrayUnion (arrayUnion xs [u]) [u] = arrayUnion xs [u] := by
  rw [arrayUnion_singleton, arrayUnion_singleton]
  by_cases hu : u ∈ xs
  · simp [hu]
  · simp [hu]

theorem arrayUnion_singleton_nodup {α : Type} [BEq α] [LawfulBEq α] (xs : List α) (u : α)
    (h : xs.Nodup) : (arrayUnion xs [u]).Nodup := by
  rw [arrayUnion_singleton]
  by_cases hu : u ∈ xs
  · simpa [hu] using h
  · simp [hu, List.nodup_append, h]

/-- C7: joinGroup is idempotent — joining the same group twice with the same
user id leaves the members list exactly as after one join — and the
array-union write preserves duplicate-freeness of the members list. -/
theorem join_group_idempotent_nodup (uid gid : String) (g : Group)
    (huid : uid ≠ "") (hgid : gid ≠ "") :
    (join_group_api (some uid) (some gid)
        (join_group_api (some uid) (some gid) (some g)).store).store
      = (join_group_api (some uid) (some gid) (some g)).store ∧
    (g.members.Nodup →
      ∀ g', (join_group_api (some uid) (some gid) (some g)).store = some g' →
        g'.members.Nodup) := by
  have h1 : join_group_api (some uid) (some gid) (some g)
      = ⟨200, some { g with members := arrayUnion g.members [uid] }⟩ := by
    simp [join_group_api, truthy, pyStr, huid, hgid]
  constructor
  · rw [h1]
    simp [join_group_api, truthy, pyStr, huid, hgid, arrayUnion_singleton_idem]
  · intro hnd g' hg'
    rw [h1] at hg'
    cases hg'
    exact arrayUnion_singleton_nodup _ _ hnd

/-- C8 (code bug): a getNotifications request with no `userId` query
parameter is not rejected — `str(None)` is the truthy string `"None"`, so
the 400 guard never fires and the handler returns 200 with a non-empty
synthesized feed for the literal user id `"None"`. -/
theorem get_notifications_missing_userId (groups : List (String × Group)) :
    (get_notifications none groups).status = 200 ∧
    ∃ feed, (get_notifications none groups).notifications = some feed ∧ feed ≠ [] := by
  constructor
  · rfl
  · exact ⟨_, rfl, by simp⟩

/-- A concrete stored user (password hash `"HASH"`) used by the auth
witnesses. -/
def uEx : User :=
  { email := "a@x", password := "HASH", fullName := "Stu", university := "U"
    branch := "B", academicYear := "Y", skills := [], profilePhotoUrl := ""
    coverPhotoUrl := "", bio := "hi" }

/-- Witness for C4: a signup missing the email is a 400 no-op; a signup
whose email collides with the stored user is a 409 no-op. -/
theorem signup_failure_creates_nothing_witness :
    signup id "id1" none (some "pw") (some "N") (some "U") (some "B") (some "Y") [] []
      = ⟨400, []⟩ ∧
    signup id "id2" (some "a@x") (some "pw") (some "N") (some "U") (some "B") (some "Y") []
      [("u0", uEx)] = ⟨409, [("u0", uEx)]⟩ :=
  ⟨(signup_failure_creates_nothing id "id1" none (some "pw") (some "N") (some "U")
      (some "B") (some "Y") [] []).1 (by decide),
   (signup_failure_creates_nothing id "id2" (some "a@x") (some "pw") (some "N") (some "U")
      (some "B") (some "Y") [] [("u0", uEx)]).2 (by decide)
      ⟨("u0", uEx), by decide, rfl⟩⟩

/-- The password checker used by the C5 witness: accepts exactly the pair
(`"pw"`, `"HASH"`). -/
def cpEx : String → String → Bool := fun p h => p == "pw" && h == "HASH"

/-- Witness for C5: with one stored user, an unknown email gives 404, a
wrong password gives 401, and the right credentials give 200 with the
password-free profile projection. -/
theorem login_errors_and_profile_witness :
    login_api cpEx (some "b@x") (some "pw") [("u0", uEx)] = ⟨404, none⟩ ∧
    login_api cpEx (some "a@x") (some "bad") [("u0", uEx)] = ⟨401, none⟩ ∧
    login_api cpEx (some "a@x") (some "pw") [("u0", uEx)] = ⟨200, some (profileOf "u0" uEx)⟩ :=
  ⟨(login_errors_and_profile cpEx "b@x" "pw" [("u0", uEx)] (by decide) (by decide)).1
      (by decide),
   ((login_errors_and_profile cpEx "a@x" "bad" [("u0", uEx)] (by decide) (by decide)).2.1
      "u0" uEx rfl).1 rfl,
   ((login_errors_and_profile cpEx "a@x" "pw" [("u0", uEx)] (by decide) (by decide)).2.1
      "u0" uEx rfl).2 rfl⟩

/-- A concrete group (creator `"u1"`, members `"u1"`, `"u2"`) used by the
discussion and join witnesses. -/
def gEx : Group :=
  { creatoruserid := "u1", project_name := some "P"
    preferred_team_size := some "4 members", members := ["u1", "u2"] }

/-- A concrete discussion attached to group `"g1"` used by the C6
witness. -/
def dEx : Discussion :=
  { roomName := "room", groupId := some "g1", messages := []
    lastMessage := none, lastMessageTime := 0, participants := ["u1"] }

/-- Witness for C6: the non-member `"u9"` sending to `dEx` (whose group
`"g1"` resolves to `gEx`) is rejected with 403 and the discussion document
is unchanged. -/
theorem send_message_nonmember_rejected_witness :
    send_message (some "d1") (some "u9") none (some "hello") 7 "t7" (some dEx)
      (fun gid => if gid == "g1" then some gEx else none) = ⟨403, some dEx⟩ :=
  send_message_nonmember_rejected "d1" "u9" none (some "hello") 7 "t7" dEx
    (fun gid => if gid == "g1" then some gEx else none) gEx "g1"
    (by decide) (by decide) rfl (by decide) rfl (by decide)

/-- Witness for C7: joining `gEx` twice as `"u3"` equals joining once, and
the members list after one join is duplicate-free. -/
theorem join_group_idempotent_nodup_witness :
    ((join_group_api (some "u3") (some "g1")
        (join_group_api (some "u3") (some "g1") (some gEx)).store).store
      = (join_group_api (some "u3") (some "g1") (some gEx)).store) ∧
    ∀ g', (join_group_api (some "u3") (some "g1") (some gEx)).store = some g' →
      g'.members.Nodup :=
  ⟨(join_group_idempotent_nodup "u3" "g1" gEx (by decide) (by decide)).1,
   (join_group_idempotent_nodup "u3" "g1" gEx (by decide) (by decide)).2 (by decide)⟩

/-! ## Helper lemmas: digit-run parsing (get_groups `maxsize`) -/

theorem takeWhile_isDigit_append (d t : List Char) (hd : ∀ c ∈ d, c.isDigit = true) :
    (d ++ t).takeWhile Char.isDigit = d ++ t.takeWhile Char.isDigit := by
  induction d with
  | nil => simp
  | cons c d' ih =>
    simp [List.takeWhile_cons, hd c (by simp), ih (fun x hx => hd x (by simp [hx]))]

theorem firstDigitRun_append_no_digit (p rest : List Char)
    (hp : ∀ c ∈ p, c.isDigit = false) :
    firstDigitRun (p ++ rest) = firstDigitRun rest := by
  induction p with
  | nil => rfl
  | cons c p' ih =>
    simp [firstDigitRun, hp c (by simp), ih (fun x hx => hp x (by simp [hx]))]

theorem firstDigitRun_decomp (p d t : List Char)
    (hp : ∀ c ∈ p, c.isDigit = false) (hd : d ≠ []) (hd2 : ∀ c ∈ d, c.isDigit = true)
    (ht : t.takeWhile Char.isDigit = []) :
    firstDigitRun (p ++ (d ++ t)) = some d := by
  rw [firstDigitRun_append_no_digit p _ hp]
  cases d with
  | nil => exact absurd rfl hd
  | cons c d' =>
    have hc : c.isDigit = true := hd2 c (by simp)
    have hrest : (d' ++ t).takeWhile Char.isDigit = d' := by
      rw [takeWhile_isDigit_append d' t (fun x hx => hd2 x (by simp [hx])), ht,
        List.append_nil]
    simp [firstDigitRun, hc, hrest]

theorem firstDigitRun_eq_none (s : List Char) (h : ∀ c ∈ s, c.isDigit = false) :
    firstDigitRun s = none := by
  induction s with
  | nil => rfl
  | cons c rest ih =>
    simp [firstDigitRun, h c (by simp), ih (fun x hx => h x (by simp [hx]))]

theorem pyTrim_subset (cs : List Char) : ∀ c ∈ pyTrim cs, c ∈ cs := by
  intro c hc
  unfold pyTrim at hc
  rw [List.mem_reverse] at hc
  have hc2 := (List.dropWhile_sublist _).subset hc
  rw [List.mem_reverse] at hc2
  exact (List.dropWhile_sublist _).subset hc2

theorem stripSign_subset (l : List Char) : ∀ c ∈ (stripSign l).2, c ∈ l := by
  intro c hc
  cases l with
  | nil =>
    simp only [stripSign] at hc
    exact absurd hc (List.not_mem_nil c)
  | cons a rest =>
    by_cases h1 : a = '-'
    · simp [stripSign, h1] at hc
      simp [hc]
    · by_cases h2 : a = '+'
      · simp [stripSign, h1, h2] at hc
        simp [hc]
      · simp only [stripSign, if_neg h1, if_neg h2] at hc
        exact hc

theorem pyInt?_eq_none_of_no_digit (s : String) (h : ∀ c ∈ s.data, c.isDigit = false) :
    pyInt? s = none := by
  simp only [pyInt?]
  rw [if_neg]
  rintro ⟨hne, hall⟩
  obtain ⟨c, hc⟩ := List.exists_mem_of_ne_nil _ hne
  rw [List.all_eq_true] at hall
  have h1 : c.isDigit = true := hall c hc
  have h2 : c ∈ s.data := pyTrim_subset s.data c (stripSign_subset (pyTrim s.data) c hc)
  rw [h c h2] at h1
  exact Bool.false_ne_true h1

theorem parseMaxSize_none_of_empty (o : Option String)
    (h : o = none ∨ o = some "") : parseMaxSize o = none := by
  rcases h with h | h <;> subst h <;> rfl

theorem parseMaxSize_no_digit (s : String) (h : ∀ c ∈ s.data, c.isDigit = false) :
    parseMaxSize (some s) = none := by
  by_cases hs : s = ""
  · subst hs; rfl
  · have hbe : (s == "") = false := beq_eq_false_iff_ne.mpr hs
    simp only [parseMaxSize, hbe, Bool.false_eq_true, if_false]
    rw [firstDigitRun_eq_none s.data h]
    exact pyInt?_eq_none_of_no_digit s h

theorem parseMaxSize_digit_run (p d t : List Char)
    (hp : ∀ c ∈ p, c.isDigit = false) (hd : d ≠ []) (hd2 : ∀ c ∈ d, c.isDigit = true)
    (ht : t.takeWhile Char.isDigit = []) :
    parseMaxSize (some (String.mk (p ++ d ++ t))) = some (digitsVal d : Int) := by
  have hne : String.mk (p ++ d ++ t) ≠ "" := by
    intro hcontra
    have hdata : p ++ d ++ t = [] := congrArg String.data hcontra
    rcases List.append_eq_nil.mp hdata with ⟨hpd, -⟩
    rcases List.append_eq_nil.mp hpd with ⟨-, hdnil⟩
    exact hd hdnil
  have hbe : (String.mk (p ++ d ++ t) == "") = false := beq_eq_false_iff_ne.mpr hne
  simp only [parseMaxSize, hbe, Bool.false_eq_true, if_false]
  rw [List.append_assoc, firstDigitRun_decomp p d t hp hd hd2 ht]

/-- The group with `preferred_team_size = "0"` and no members used by the C3
counterexample. -/
def gZero : Group :=
  { creatoruserid := "c", project_name := some "G"
    preferred_team_size := some "0", members := [] }

/-- C3 counterexample: with `preferred_team_size = "0"` and an empty members
list, `maxMembers` is the known value 0 and `memberCount ≥ maxMembers`, yet
`isFull` is false — Python's `if maxsize and ...` treats a zero `maxsize` as
falsy, so the claim's biconditional fails at this input. -/
theorem groupView_isFull_zero_counterexample :
    (groupView "" gZero).maxMembers = some 0 ∧
    (0 : Int) ≤ ((groupView "" gZero).memberCount : Int) ∧
    (groupView "" gZero).isFull = false :=
  ⟨rfl, by decide, rfl⟩

/-- C3 (amended): in each group view, `memberCount` is the length of the
members array; `maxMembers` is the base-10 value of the first digit run of
`preferred_team_size` (absent when the field is missing, empty, or has no
digit — the `int()` fallback can never succeed in that case); and `isFull`
holds exactly when `maxMembers` is known, nonzero, and `memberCount ≥
maxMembers` (the nonzero condition is forced by Python truthiness of
`maxsize`). -/
theorem groupView_maxMembers_isFull (userid : String) (g : Group) :
    ((groupView userid g).memberCount = g.members.length) ∧
    ((groupView userid g).isFull = true ↔
      ∃ m : Int, (groupView userid g).maxMembers = some m ∧ m ≠ 0 ∧
        m ≤ (g.members.length : Int)) ∧
    ((g.preferred_team_size = none ∨ g.preferred_team_size = some "") →
      (groupView userid g).maxMembers = none) ∧
    (∀ s, g.preferred_team_size = some s → (∀ c ∈ s.data, c.isDigit = false) →
      (groupView userid g).maxMembers = none) ∧
    (∀ p d t : List Char, g.preferred_team_size = some (String.mk (p ++ d ++ t)) →
      (∀ c ∈ p, c.isDigit = false) → d ≠ [] → (∀ c ∈ d, c.isDigit = true) →
      t.takeWhile Char.isDigit = [] →
      (groupView userid g).maxMembers = some (digitsVal d : Int)) := by
  have hmax : (groupView userid g).maxMembers = parseMaxSize g.preferred_team_size := rfl
  have hfull : (groupView userid g).isFull
      = match parseMaxSize g.preferred_team_size with
        | some m => (m != 0) && decide (m ≤ (g.members.length : Int))
        | none => false := rfl
  refine ⟨rfl, ?_, ?_, ?_, ?_⟩
  · rw [hfull]
    cases hm : parseMaxSize g.preferred_team_size with
    | none => simp [hmax, hm]
    | some m =>
      rw [hmax, hm]
      simp [Bool.and_eq_true, bne_iff_ne, decide_eq_true_iff]
  · intro h
    rw [hmax]
    exact parseMaxSize_none_of_empty _ h
  · intro s hs hnd
    rw [hmax, hs]
    exact parseMaxSize_no_digit s hnd
  · intro p d t hs hp hd hd2 ht
    rw [hmax, hs]
    exact parseMaxSize_digit_run p d t hp hd hd2 ht

/-- The claim's example groups: team size `"4 members"` with four and with
three members, and an empty team-size field. -/
def g4 : Group :=
  { creatoruserid := "u1", project_name := some "P"
    preferred_team_size := some "4 members", members := ["a", "b", "c", "d"] }

def g3 : Group :=
  { creatoruserid := "u1", project_name := some "P"
    preferred_team_size := some "4 members", members := ["a", "b", "c"] }

def gE : Group :=
  { creatoruserid := "u1", project_name := some "P"
    preferred_team_size := some "", members := ["a"] }

/-- Witness for C3 (amended) at the claim's own examples: `"4 members"` with
4 members is full, with 3 members it is not, and an empty team size yields
no `maxMembers` and not full. -/
theorem groupView_maxMembers_isFull_witness :
    (groupView "" g4).maxMembers = some 4 ∧ (groupView "" g4).isFull = true ∧
    (groupView "" g3).isFull = false ∧
    (groupView "" gE).maxMembers = none ∧ (groupView "" gE).isFull = false := by
  have t4 := groupView_maxMembers_isFull "" g4
  have t3 := groupView_maxMembers_isFull "" g3
  have tE := groupView_maxMembers_isFull "" gE
  have hm4 : (groupView "" g4).maxMembers = some 4 := by
    have := t4.2.2.2.2 [] ['4'] " members".data rfl (by decide) (by decide) (by decide) rfl
    simpa using this
  have hf4 : (groupView "" g4).isFull = true :=
    t4.2.1.mpr ⟨4, hm4, by decide, by decide⟩
  have hm3 : (groupView "" g3).maxMembers = some 4 := by
    have := t3.2.2.2.2 [] ['4'] " members".data rfl (by decide) (by decide) (by decide) rfl
    simpa using this
  have hf3 : (groupView "" g3).isFull = false := by
    rw [Bool.eq_false_iff]
    intro h
    obtain ⟨m, hm, hne, hle⟩ := t3.2.1.mp h
    rw [hm3] at hm
    injection hm with hm
    subst hm
    exact absurd hle (by decide)
  have hmE : (groupView "" gE).maxMembers = none := tE.2.2.1 (Or.inr rfl)
  have hfE : (groupView "" gE).isFull = false := by
    rw [Bool.eq_false_iff]
    intro h
    obtain ⟨m, hm, -, -⟩ := tE.2.1.mp h
    rw [hmE] at hm
    exact Option.noConfusion hm
  exact ⟨hm4, hf4, hf3, hmE, hfE⟩

end Huddle
